import Mathlib

set_option maxHeartbeats 1000000
set_option maxRecDepth 10000

/- Shallow embedding of the J Supreme Marketing single-file Flask site
(app.py): record store, content registry, background-image resolution,
ad-unit gating, SEO sitemap, page rendering, and the HTTP handlers for
the contact-form and newsletter endpoints.

Conventions of the embedding:
* `Option String` models a Python value that may be `None`.
* Machine state touched by the handlers (the two CSV files, the two image
  directories) is passed in and returned explicitly.
* The nondeterministic inputs of a request (UTC timestamp, form fields,
  headers) are parameters.
* Python `str.strip()` is embedded as `strip` below, dropping leading and
  trailing whitespace characters from the character list. -/

/-- Python `x or d` for an optional string `x`: `None` and the empty string
are falsy, any other string is returned unchanged. -/
def pyOr (x : Option String) (d : String) : String :=
  match x with
  | none => d
  | some s => if s = "" then d else s

/-- Characters remaining after Python `str.strip()`: drop leading
whitespace, then drop trailing whitespace. -/
def stripChars (l : List Char) : List Char :=
  ((l.dropWhile Char.isWhitespace).reverse.dropWhile Char.isWhitespace).reverse

/-- Embedding of Python `str.strip()` (no arguments: strip whitespace). -/
def strip (s : String) : String := String.mk (stripChars s.data)

/-- State of one CSV file: `none` when the file does not exist, otherwise
the list of its rows, each row the list of its field strings (one
`csv.writer.writerow` call appends exactly one row). -/
abbrev FileState := Option (List (List String))

/-- `ensure_csv_header(path, header)`: if the file does not exist, create it
with the header as its only row; an existing file is left untouched,
whatever it contains. Returns the resulting file contents. -/
def ensure_csv_header (file : FileState) (header : List String) : List (List String) :=
  match file with
  | none => [header]
  | some rows => rows

/-- `save_row(path, header, row)`: ensure the header, then append exactly
one data row. Returns the resulting file contents. -/
def save_row (file : FileState) (header row : List String) : List (List String) :=
  ensure_csv_header file header ++ [row]

/-- The lead payload built by the /api/lead handler (all keys present). -/
structure LeadData where
  name : String
  email : String
  company : String
  website : String
  budget : String
  goal : String
  message : String
  source : String
  ip : String
  user_agent : String
deriving DecidableEq

/-- Header row of leads.csv, fixed in `save_lead`. -/
def leadHeader : List String :=
  ["created_at_utc", "name", "email", "company", "website", "budget", "goal",
   "message", "source", "ip", "user_agent"]

/-- The data row `save_lead` writes, with the server-assigned timestamp
`now` in front (the source calls `now_iso()` here). -/
def lead_row (now : String) (data : LeadData) : List String :=
  [now, data.name, data.email, data.company, data.website, data.budget,
   data.goal, data.message, data.source, data.ip, data.user_agent]

/-- `save_lead(data)`: append the lead row to the leads file via `save_row`. -/
def save_lead (now : String) (data : LeadData) (file : FileState) : List (List String) :=
  save_row file leadHeader (lead_row now data)

/-- The subscriber payload built by the /api/newsletter handler. -/
structure SubscriberData where
  email : String
  source : String
  ip : String
  user_agent : String
deriving DecidableEq

/-- Header row of newsletter.csv, fixed in `save_subscriber`. -/
def subscriberHeader : List String :=
  ["created_at_utc", "email", "source", "ip", "user_agent"]

/-- The data row `save_subscriber` writes. -/
def subscriber_row (now : String) (data : SubscriberData) : List String :=
  [now, data.email, data.source, data.ip, data.user_agent]

/-- `save_subscriber(data)`: append the subscriber row via `save_row`. -/
def save_subscriber (now : String) (data : SubscriberData) (file : FileState) :
    List (List String) :=
  save_row file subscriberHeader (subscriber_row now data)

/-- Request metadata the handlers read from headers: the X-Forwarded-For
header (absent ⇒ `none`), the remote address, and the User-Agent header. -/
structure RequestMeta where
  xForwardedFor : Option String
  remoteAddr : String
  userAgent : Option String
deriving DecidableEq

/-- The form fields of a POST /api/lead request; `none` models an absent
field (`request.form.get` returning `None`). -/
structure LeadForm where
  name : Option String
  email : Option String
  company : Option String
  website : Option String
  budget : Option String
  goal : Option String
  message : Option String
  source : Option String
deriving DecidableEq

/-- The form fields of a POST /api/newsletter request. -/
structure NewsletterForm where
  email : Option String
  source : Option String
deriving DecidableEq

/-- An HTTP response of the route layer: `abort(status, msg)` errors,
`redirect(location, code)` redirects, and rendered 200 pages. -/
inductive RouteResult where
  | err (status : Nat) (msg : Option String)
  | redirect (status : Nat) (location : String)
  | ok (status : Nat) (body : String)
deriving DecidableEq

/-- Flask `url_for` over the route table of app.py (parameterless routes). -/
def url_for : String → String
  | "home" => "/"
  | "insights" => "/insights"
  | "blog" => "/blog"
  | "start" => "/start"
  | "privacy" => "/privacy"
  | "terms" => "/terms"
  | "thank_you" => "/thank-you"
  | "newsletter_thanks" => "/newsletter/thanks"
  | "lead" => "/api/lead"
  | "newsletter_subscribe" => "/api/newsletter"
  | _ => ""

/-- `url_for("blog_post", slug=...)` for the /blog/<slug> route. -/
def url_for_blog_post (slug : String) : String := "/blog/" ++ slug

/-- Python `CANONICAL_DOMAIN.rstrip("/")`: drop every trailing slash. -/
def rstrip_slash (s : String) : String :=
  String.mk ((s.data.reverse.dropWhile (fun c => c == '/')).reverse)

/-- `site_url(path)`: prefix the configured canonical domain (with trailing
slashes removed) when one is configured, else return the bare path. -/
def site_url (domain : String) (path : String) : String :=
  if domain ≠ "" then rstrip_slash domain ++ path else path

/-- The static page GET routes registered in app.py (the `@app.route`
page-render endpoints without URL parameters): home, insights, blog,
start, thank-you, newsletter-thanks, privacy, terms. -/
def page_routes : List String :=
  ["/", "/insights", "/blog", "/start", "/thank-you", "/newsletter/thanks",
   "/privacy", "/terms"]

/-- One entry of the blog post registry. -/
structure BlogPost where
  slug : String
  title : String
  date : String
  excerpt : String
  html : String
deriving DecidableEq

/-- The fixed static-page portion of the sitemap: (loc, changefreq,
priority) triples in source order. -/
def static_pages (domain : String) : List (String × String × String) :=
  [(site_url domain (url_for "home"), "weekly", "1.0"),
   (site_url domain (url_for "insights"), "weekly", "0.7"),
   (site_url domain (url_for "blog"), "weekly", "0.7"),
   (site_url domain (url_for "start"), "monthly", "0.7"),
   (site_url domain (url_for "privacy"), "yearly", "0.2"),
   (site_url domain (url_for "terms"), "yearly", "0.2"),
   (site_url domain (url_for "thank_you"), "yearly", "0.1")]

/-- The `pages` list the sitemap handler builds: the static pages followed
by one entry per blog post. -/
def sitemap_pages (domain : String) (posts : List BlogPost) :
    List (String × String × String) :=
  static_pages domain ++
    posts.map (fun p => (site_url domain (url_for_blog_post p.slug), "monthly", "0.6"))

/-- The five XML lines the sitemap loop appends for one page entry. -/
def url_entry_lines (e : String × String × String) : List String :=
  ["  <url>",
   "    <loc>" ++ e.1 ++ "</loc>",
   "    <changefreq>" ++ e.2.1 ++ "</changefreq>",
   "    <priority>" ++ e.2.2 ++ "</priority>",
   "  </url>"]

/-- The lines of the sitemap XML response (the source joins them with
newlines). -/
def sitemap_xml_lines (domain : String) (posts : List BlogPost) : List String :=
  ["<?xml version=\"1.0\" encoding=\"UTF-8\"?>",
   "<urlset xmlns=\"http://www.sitemaps.org/schemas/sitemap/0.9\">"] ++
    ((sitemap_pages domain posts).map url_entry_lines).flatten ++ ["</urlset>"]

/-- Numeric reading, in tenths, of the fixed priority literals the sitemap
uses, to compare priority weights. -/
def prio10 : String → Nat
  | "1.0" => 10
  | "0.7" => 7
  | "0.6" => 6
  | "0.2" => 2
  | "0.1" => 1
  | _ => 0

/-- The two image directory states: whether a file name exists in
static/img and in images (filesystem reads only). -/
structure FS where
  staticImg : String → Bool
  imagesDir : String → Bool

/-- Which directory a background file was found in. -/
inductive BgPath where
  | staticImg (filename : String)
  | imagesDir (filename : String)
deriving DecidableEq

/-- `find_bg_file(filename)`: check static/img first, then images; return
the first existing match, else `None`. -/
def find_bg_file (fs : FS) (filename : String) : Option BgPath :=
  if fs.staticImg filename then some (BgPath.staticImg filename)
  else if fs.imagesDir filename then some (BgPath.imagesDir filename)
  else none

/-- The page-key → background file name dict of `bg_image_for`. -/
def bg_mapping : List (String × String) :=
  [("home", "home_bg_1920x1080.jpg"),
   ("insights", "insights_bg_1920x1080.jpg"),
   ("start", "start_bg_1920x1080.jpg"),
   ("privacy", "privacy_bg_1920x1080.jpg"),
   ("terms", "terms_bg_1920x1080.jpg"),
   ("thank_you", "thank_you_bg_1920x1080.jpg"),
   ("blog", "insights_bg_1920x1080.jpg")]

/-- `bg_image_for(page)`: look the page key up in the mapping; a missing or
falsy file name yields `None`; otherwise return the public URL path when
the file exists in either candidate directory, else `None`. -/
def bg_image_for (fs : FS) (page : String) : Option String :=
  match bg_mapping.lookup page with
  | none => none
  | some filename =>
    if filename = "" then none
    else
      match find_bg_file fs filename with
      | some _ => some ("/static/img/" ++ filename)
      | none => none

/-- Static text of the AdSense ad-unit block around the client id slot
(the f-string of `adsense_ad_unit` after its `.strip()`, first part). -/
def ad_block_c0 : String :=
  "<div class=\"adbox\">\n  <div class=\"adlabel\">ADVERTISEMENT</div>\n  <ins class=\"adsbygoogle\"\n       style=\"display:block\"\n       data-ad-client=\""

/-- Ad-unit block text between the client id and the slot id. -/
def ad_block_c1 : String :=
  "\"\n       data-ad-slot=\""

/-- Ad-unit block text after the slot id (the doubled braces of the Python
f-string render as one literal brace pair). -/
def ad_block_c2 : String :=
  "\"\n       data-ad-format=\"auto\"\n       data-full-width-responsive=\"true\"></ins>\n  <script>(adsbygoogle = window.adsbygoogle || []).push(\x7b\x7d);</script>\n</div>"

/-- The full ad-unit HTML block for a client id and slot id. -/
def ad_block (client slot : String) : String :=
  ad_block_c0 ++ (client ++ (ad_block_c1 ++ (slot ++ ad_block_c2)))

/-- `adsense_ad_unit(slot)`: empty markup unless the ads-enabled flag is
set, the client id is configured (non-empty) and the slot id is non-empty;
otherwise the full responsive ad-unit block. -/
def adsense_ad_unit (enabled : Bool) (client slot : String) : String :=
  if ¬(enabled = true ∧ client ≠ "" ∧ slot ≠ "") then ""
  else ad_block client slot

/-- The environment-derived configuration the renderer and handlers read. -/
structure Config where
  canonical_domain : String
  include_pixels : Bool
  adsense_enabled : Bool
  adsense_client : String
  adsense_slot_header : String
  adsense_slot_inarticle : String
  adsense_slot_sidebar : String

/-- APP_NAME constant. -/
def APP_NAME : String := "J Supreme Marketing"

/-- SLOGAN constant. -/
def SLOGAN : String := "Strategy · Execution · Distribution"
/- Template text of the source, split at Jinja substitution points.
   Each chunk is the exact static text between substitutions; url_for
   references are resolved to the paths of the named routes. -/

def base_c0 : String :=
  "\n<!doctype html>\n<html lang=\"en\">\n<head>\n  <meta charset=\"utf-8\" />\n  <meta name=\"viewport\" content=\"width=device-width,initial-scale=1\" />\n  <title>"

def base_c1 : String :=
  "</title>\n  <meta name=\"description\" content=\""

def base_c2 : String :=
  "\" />\n  <link rel=\"canonical\" href=\""

def base_c3 : String :=
  "\" />\n\n  <meta property=\"og:title\" content=\""

def base_c4 : String :=
  "\" />\n  <meta property=\"og:description\" content=\""

def base_c5 : String :=
  "\" />\n  <meta property=\"og:type\" content=\"website\" />\n  <meta property=\"og:url\" content=\""

def base_c6 : String :=
  "\" />\n\n  <link rel=\"preconnect\" href=\"https://fonts.googleapis.com\">\n  <link rel=\"preconnect\" href=\"https://fonts.gstatic.com\" crossorigin>\n  <link href=\"https://fonts.googleapis.com/css2?family=Inter:wght@300;400;500;600&family=Playfair+Display:wght@400;500;600&display=swap\" rel=\"stylesheet\">\n\n  "

def base_c7 : String :=
  "\n    \n    <script async src=\"https://pagead2.googlesyndication.com/pagead/js/adsbygoogle.js?client="

def base_c8 : String :=
  "\" crossorigin=\"anonymous\"></script>\n  "

def base_c9 : String :=
  "\n\n  <style>\n    :root\x7b\n      --bg:#07070a; --bg2:#0b0b10; --text:#f2f2f2; --muted:#b9b9c4;\n      --line:rgba(255,255,255,.10);\n      --glass:rgba(0,0,0,.22);\n\n      /* Clear hero tuning */\n      --hero-bright: 1.05;\n      --hero-contrast: 1.22;\n      --hero-sat: 1.18;\n      --hero-blur: 0px;\n\n      /* Lighter overlay */\n      --overlay-a: 0.48;\n      --overlay-b: 0.24;\n      --overlay-c: 0.08;\n    \x7d\n\n    *\x7bbox-sizing:border-box\x7d\n    html,body\x7bheight:100%\x7d\n    body\x7b\n      margin:0;\n      color:var(--text);\n      font-family:Inter,system-ui,-apple-system,Segoe UI,Roboto,Arial,sans-serif;\n      background:\n        radial-gradient(1200px 800px at 70% 20%, rgba(255,255,255,.06), transparent 60%),\n        linear-gradient(180deg, var(--bg), var(--bg2));\n    \x7d\n\n    .container\x7bwidth:min(1180px,92vw);margin:0 auto\x7d\n    a\x7bcolor:inherit\x7d\n\n    header\x7b\n      position:fixed; inset:0 0 auto 0; z-index:50;\n      background:linear-gradient(180deg, rgba(0,0,0,.70), rgba(0,0,0,0));\n      backdrop-filter: blur(6px);\n    \x7d\n\n    .topbar\x7b\n      display:flex; align-items:center; justify-content:space-between;\n      padding:14px 0;\n    \x7d\n\n    .brand\x7b\n      font-family:\"Playfair Display\",Georgia,serif;\n      text-decoration:none;\n      font-size:17px;\n      letter-spacing:.2px;\n      position:relative;\n      top:-1px;\n      margin-left:2px;\n    \x7d\n\n    nav\x7bdisplay:flex; gap:18px; align-items:center\x7d\n    nav a\x7b\n      text-decoration:none;\n      font-size:13px; letter-spacing:.3px;\n      color:rgba(255,255,255,.78);\n    \x7d\n    nav a:hover\x7bcolor:rgba(255,255,255,.95)\x7d\n    .navcta\x7b\n      padding:10px 12px; border:1px solid var(--line); border-radius:999px;\n      background:rgba(0,0,0,.10);\n    \x7d\n\n    .hero\x7b\n      min-height:92vh;\n      padding-top:92px;\n      display:flex; align-items:center;\n      position:relative; overflow:hidden;\n      isolation:isolate;\n    \x7d\n\n    .hero-bg\x7b\n      position:absolute; inset:0; z-index:0;\n      background: center/cover no-repeat;\n      filter: brightness(var(--hero-bright)) contrast(var(--hero-contrast)) saturate(var(--hero-sat)) blur(var(--hero-blur));\n      image-rendering: -webkit-optimize-contrast;\n      backface-visibility: hidden;\n      transform: translateZ(0);\n      will-change: transform, filter;\n    \x7d\n\n    .hero-bg.fallback\x7b\n      background:\n        radial-gradient(700px 400px at 70% 55%, rgba(255,255,255,.09), transparent 65%),\n        linear-gradient(180deg, #0a0a0f, #06060a);\n    \x7d\n\n    .hero-overlay\x7b\n      position:absolute; inset:0; z-index:1;\n      pointer-events:none;\n      background: linear-gradient(\n        90deg,\n        rgba(0,0,0,var(--overlay-a)) 0%,\n        rgba(0,0,0,var(--overlay-b)) 45%,\n        rgba(0,0,0,var(--overlay-c)) 75%,\n        rgba(0,0,0,0) 100%\n      );\n    \x7d\n\n    .hero-inner\x7bposition:relative; z-index:2; width:100%\x7d\n\n    h1\x7b\n      font-family:\"Playfair Display\",Georgia,serif;\n      font-weight:500; line-height:1.05;\n      font-size:clamp(40px,5vw,62px);\n      margin:0 0 18px 0;\n      text-shadow: 0 10px 30px rgba(0,0,0,.35);\n    \x7d\n\n    .sub\x7bcolor:var(--muted); line-height:1.6; max-width:55ch; margin:0 0 22px 0\x7d\n    .actions\x7bdisplay:flex; gap:14px; align-items:center; flex-wrap:wrap\x7d\n    .btn\x7b\n      display:inline-flex; align-items:center; justify-content:center;\n      padding:12px 16px; border:1px solid var(--line);\n      border-radius:10px; text-decoration:none;\n      background:rgba(0,0,0,.22);\n      font-weight:500;\n      cursor:pointer;\n    \x7d\n    .btn:hover\x7bbackground:rgba(255,255,255,.06)\x7d\n    .link\x7bcolor:rgba(255,255,255,.78); text-decoration:none\x7d\n    .link:hover\x7bcolor:rgba(255,255,255,.95)\x7d\n\n    .strip\x7b\n      border-top:1px solid var(--line);\n      border-bottom:1px solid var(--line);\n      background:rgba(255,255,255,.02);\n    \x7d\n    .strip-inner\x7b\n      display:grid; grid-template-columns:repeat(3,1fr);\n      gap:16px; padding:22px 0;\n    \x7d\n    .pill\x7b\n      padding:16px; border:1px solid var(--line); border-radius:14px;\n      background:rgba(0,0,0,.18);\n    \x7d\n    .kicker\x7bfont-size:12px; letter-spacing:.24em; color:rgba(255,255,255,.78)\x7d\n    .pill p\x7bmargin:10px 0 0 0; color:var(--muted); font-size:14px; line-height:1.5\x7d\n\n    .section\x7bpadding:64px 0\x7d\n    .muted\x7bbackground:rgba(255,255,255,.02); border-top:1px solid var(--line); border-bottom:1px solid var(--line)\x7d\n    h2\x7b\n      font-family:\"Playfair Display\",Georgia,serif;\n      font-weight:500; font-size:32px;\n      margin:0 0 18px 0;\n    \x7d\n    .grid2\x7bdisplay:grid; grid-template-columns:repeat(2,1fr); gap:14px\x7d\n    .card\x7b\n      padding:18px; border:1px solid var(--line); border-radius:14px;\n      background:rgba(255,255,255,.04);\n    \x7d\n    .card .title\x7bfont-weight:600; margin-bottom:8px\x7d\n    .card .desc\x7bcolor:var(--muted); line-height:1.5\x7d\n\n    .proof\x7bdisplay:grid; grid-template-columns:repeat(3,1fr); gap:14px\x7d\n    .proof-item\x7b\n      padding:18px; border:1px solid var(--line); border-radius:14px;\n      background:rgba(0,0,0,.15);\n      display:flex; gap:14px; align-items:flex-start;\n    \x7d\n    .badge\x7b\n      min-width:44px; height:44px; border:1px solid var(--line);\n      border-radius:12px; display:flex; align-items:center; justify-content:center;\n      background:rgba(255,255,255,.03); font-weight:600;\n    \x7d\n    .proof-item p\x7bmargin:0; color:var(--muted); line-height:1.55\x7d\n\n    .cta\x7bpadding:54px 0\x7d\n    .cta-inner\x7b\n      border:1px solid var(--line); border-radius:16px;\n      padding:22px; background:var(--glass);\n      display:flex; align-items:center; justify-content:space-between; gap:18px;\n    \x7d\n    .cta-inner h3\x7b\n      margin:0 0 6px 0;\n      font-family:\"Playfair Display\",Georgia,serif;\n      font-weight:500; font-size:24px;\n    \x7d\n    .cta-inner p\x7bmargin:0; color:var(--muted)\x7d\n\n    .page\x7bpadding-top:120px; padding-bottom:70px\x7d\n    .lead\x7bcolor:var(--muted); max-width:80ch; line-height:1.6\x7d\n\n    /* BLOG */\n    .blogwrap\x7bdisplay:grid; grid-template-columns: 1.35fr .65fr; gap:16px; align-items:start\x7d\n    .postcard\x7b\n      padding:18px; border:1px solid var(--line); border-radius:14px;\n      background:rgba(255,255,255,.03);\n    \x7d\n    .postcard a\x7btext-decoration:none\x7d\n    .postmeta\x7bcolor:rgba(255,255,255,.60); font-size:13px; margin-top:8px\x7d\n    .postbody\x7bcolor:var(--muted); line-height:1.75\x7d\n    .sidebar\x7b\n      padding:18px; border:1px solid var(--line); border-radius:14px;\n      background:rgba(0,0,0,.12);\n      position:sticky; top:110px;\n    \x7d\n\n    /* NEWSLETTER */\n    .newsletter\x7b\n      margin-top:18px;\n      border:1px solid var(--line);\n      border-radius:14px;\n      padding:16px;\n      background:rgba(255,255,255,.03);\n      display:grid;\n      gap:10px;\n    \x7d\n    .newsletter .hint\x7bcolor:rgba(255,255,255,.65); font-size:13px; line-height:1.5\x7d\n    .newsletter .row\x7b\n      display:grid; grid-template-columns: 1fr auto; gap:10px;\n    \x7d\n\n    /* ADS (refined containers) */\n    .adbox\x7b\n      border:1px solid rgba(255,255,255,.10);\n      border-radius:14px;\n      background:rgba(0,0,0,.18);\n      padding:14px;\n    \x7d\n    .adlabel\x7b\n      font-size:11px;\n      letter-spacing:.22em;\n      color:rgba(255,255,255,.45);\n      margin:0 0 10px 0;\n    \x7d\n\n    form\x7b\n      margin-top:18px;\n      border:1px solid var(--line);\n      border-radius:14px;\n      padding:16px;\n      background:rgba(255,255,255,.03);\n      display:grid;\n      gap:12px;\n      max-width:720px;\n    \x7d\n    label\x7bfont-size:13px; color:rgba(255,255,255,.78)\x7d\n    input, textarea, select\x7b\n      width:100%;\n      padding:12px;\n      border-radius:12px;\n      border:1px solid rgba(255,255,255,.12);\n      background:rgba(0,0,0,.25);\n      color:var(--text);\n      outline:none;\n      font-family:inherit;\n    \x7d\n    textarea\x7bmin-height:120px; resize:vertical\x7d\n    .row2\x7bdisplay:grid; grid-template-columns:1fr 1fr; gap:12px\x7d\n\n    footer\x7b\n      border-top:1px solid var(--line);\n      padding:22px 0;\n      background:rgba(0,0,0,.25);\n    \x7d\n    .footer-inner\x7b\n      display:flex; justify-content:space-between; gap:14px; flex-wrap:wrap;\n    \x7d\n    .footbrand\x7bfont-family:\"Playfair Display\",Georgia,serif; font-size:16px\x7d\n    .foottag\x7bcolor:rgba(255,255,255,.65); font-size:13px; margin-top:4px\x7d\n    .footlinks a\x7bcolor:rgba(255,255,255,.75); text-decoration:none; font-size:13px\x7d\n    .footlinks a:hover\x7bcolor:rgba(255,255,255,.95)\x7d\n    .dot\x7bcolor:rgba(255,255,255,.40); margin:0 8px\x7d\n\n    @media (max-width: 980px)\x7b\n      :root\x7b --hero-bright:1.02; --hero-contrast:1.18; --overlay-a:0.55; --overlay-b:0.30; --overlay-c:0.10; \x7d\n      .blogwrap\x7bgrid-template-columns:1fr\x7d\n      .sidebar\x7bposition:static\x7d\n    \x7d\n\n    @media (max-width: 600px)\x7b\n      :root\x7b --hero-bright:0.95; --hero-contrast:1.15; --hero-blur:0px; --overlay-a:0.60; --overlay-b:0.35; --overlay-c:0.12; \x7d\n      .hero-overlay\x7b\n        background: linear-gradient(\n          180deg,\n          rgba(0,0,0,var(--overlay-a)) 0%,\n          rgba(0,0,0,var(--overlay-b)) 55%,\n          rgba(0,0,0,var(--overlay-c)) 100%\n        );\n      \x7d\n      .newsletter .row\x7bgrid-template-columns:1fr\x7d\n    \x7d\n\n    @media (max-width: 860px)\x7b\n      nav\x7bdisplay:none\x7d\n      .strip-inner\x7bgrid-template-columns:1fr\x7d\n      .grid2\x7bgrid-template-columns:1fr\x7d\n      .proof\x7bgrid-template-columns:1fr\x7d\n      .cta-inner\x7bflex-direction:column; align-items:flex-start\x7d\n      .row2\x7bgrid-template-columns:1fr\x7d\n    \x7d\n  </style>\n\n  "

def base_c10 : String :=
  "\n  <!-- OPTIONAL AD PIXELS PLACEHOLDER -->\n  "

def base_c11 : String :=
  "\n</head>\n\n<body>\n  <header>\n    <div class=\"container topbar\">\n      <a class=\"brand\" href=\"/\">"

def base_c12 : String :=
  "</a>\n      <nav>\n        <a href=\"/#approach\">Approach</a>\n        <a href=\"/#capabilities\">Capabilities</a>\n        <a href=\"/#proof\">Proof</a>\n        <a href=\"/blog\">Blog</a>\n        <a class=\"navcta\" href=\"/start\">Start Conversation</a>\n      </nav>\n    </div>\n  </header>\n\n  "

def base_c13 : String :=
  "\n\n  <footer>\n    <div class=\"container footer-inner\">\n      <div>\n        <div class=\"footbrand\">"

def base_c14 : String :=
  "</div>\n        <div class=\"foottag\">"

def base_c15 : String :=
  "</div>\n      </div>\n      <div class=\"footlinks\">\n        <a href=\"/insights\">Insights</a>\n        <span class=\"dot\">•</span>\n        <a href=\"/blog\">Blog</a>\n        <span class=\"dot\">•</span>\n        <a href=\"/privacy\">Privacy</a>\n        <span class=\"dot\">•</span>\n        <a href=\"/terms\">Terms</a>\n        <span class=\"dot\">•</span>\n        <a href=\"mailto:jordanmorrisr@gmail.com\">jordanmorrisr@gmail.com</a>\n        <span class=\"dot\">•</span>\n        <a href=\"tel:+16582182282\">(658) 218-2282</a>\n      </div>\n    </div>\n  </footer>\n</body>\n</html>\n"

def bpb_c16 : String :=
  "\n<main class=\"page\">\n  <div class=\"container\">\n    <div class=\"blogwrap\">\n      <article class=\"postcard\">\n        <div class=\"kicker\">BLOG POST</div>\n        <h1 style=\"font-size:42px; margin-top:10px;\">"

def bpb_c17 : String :=
  "</h1>\n        <div class=\"postmeta\">"

def bpb_c18 : String :=
  "</div>\n\n        "

def bpb_c19 : String :=
  "\n          <div style=\"margin-top:14px;\">"

def bpb_c20 : String :=
  "</div>\n        "

def bpb_c21 : String :=
  "\n\n        <div class=\"postbody\" style=\"margin-top:16px;\">\n          "

def bpb_c22 : String :=
  "\n        </div>\n\n        "

def bpb_c23 : String :=
  "\n          <div style=\"margin-top:18px;\">"

def bpb_c24 : String :=
  "</div>\n        "

def bpb_c25 : String :=
  "\n\n        <div style=\"margin-top:18px;\">\n          <a class=\"link\" href=\"/blog\">← Back to Blog</a>\n        </div>\n      </article>\n\n      <aside class=\"sidebar\">\n        <div class=\"kicker\">MORE</div>\n        <div class=\"desc\" style=\"color:var(--muted); margin-top:10px; line-height:1.6;\">\n          Get short strategy dispatches and frameworks.\n        </div>\n\n        \n<div class=\"newsletter\">\n  <div class=\"kicker\">NEWSLETTER</div>\n  <div class=\"hint\">Short strategy dispatches—no spam. If it’s not useful, we won’t send it.</div>\n  <form method=\"post\" action=\"/api/newsletter\" style=\"margin:0; padding:0; border:none; background:transparent; max-width:none;\">\n    <div class=\"row\">\n      <input name=\"email\" type=\"email\" required placeholder=\"you@company.com\" aria-label=\"Email address\" />\n      <button class=\"btn\" type=\"submit\">Subscribe</button>\n    </div>\n    <input type=\"hidden\" name=\"source\" value=\"newsletter_block\" />\n  </form>\n</div>\n\n\n        "

def bpb_c26 : String :=
  "\n          <div style=\"margin-top:12px;\">"

def bpb_c27 : String :=
  "</div>\n        "

def bpb_c28 : String :=
  "\n      </aside>\n    </div>\n  </div>\n</main>\n"

/-- Rendering of the BASE layout template with its context variables
substituted and its conditional blocks resolved, exactly as the Jinja
renderer instantiates it in render_page. -/
def renderBASE (meta_title meta_desc canonical : String)
    (adsense_enabled : Bool) (adsense_client : String)
    (include_pixels : Bool) (app_name slogan body : String) : String :=
  base_c0 ++ (meta_title ++ (base_c1 ++ (meta_desc ++ (base_c2 ++ (canonical ++ (base_c3 ++ (meta_title ++ (base_c4 ++ (meta_desc ++ (base_c5 ++ (canonical ++ (base_c6 ++ ((if adsense_enabled then base_c7 ++ (adsense_client ++ base_c8) else "") ++ (base_c9 ++ ((if include_pixels then base_c10 else "") ++ (base_c11 ++ (app_name ++ (base_c12 ++ (body ++ (base_c13 ++ (app_name ++ (base_c14 ++ (slogan ++ base_c15)))))))))))))))))))))))

/-- Rendering of BLOG_POST_BODY (with the NEWSLETTER_BLOCK the source
concatenates into it) for a given post and ad-unit strings, as the
blog_post route instantiates it. -/
def renderBLOG_POST_BODY (post : BlogPost)
    (ad_header ad_inarticle ad_sidebar : String) : String :=
  bpb_c16 ++ (post.title ++ (bpb_c17 ++ (post.date ++ (bpb_c18 ++ ((if ad_header ≠ "" then bpb_c19 ++ (ad_header ++ bpb_c20) else "") ++ (bpb_c21 ++ (post.html ++ (bpb_c22 ++ ((if ad_inarticle ≠ "" then bpb_c23 ++ (ad_inarticle ++ bpb_c24) else "") ++ (bpb_c25 ++ ((if ad_sidebar ≠ "" then bpb_c26 ++ (ad_sidebar ++ bpb_c27) else "") ++ bpb_c28)))))))))))

/-- The fixed blog post registry BLOG_POSTS of the source. -/
def BLOG_POSTS : List BlogPost :=
  [⟨"positioning-before-promotion",
   "Positioning Before Promotion",
   "2025-12-23",
   "Why pushing harder rarely fixes weak demand—and what to diagnose first.",
   "\n<p>Most brands don’t have an advertising problem. They have a <strong>positioning</strong> problem.</p>\n<p>Before you spend more on ads, audit three things:</p>\n<ul>\n  <li><strong>Offer clarity:</strong> can a stranger repeat what you do in one sentence?</li>\n  <li><strong>Audience fit:</strong> are you speaking to buyers or browsers?</li>\n  <li><strong>Proof:</strong> do you show outcomes, not just features?</li>\n</ul>\n<p>When these are aligned, distribution becomes leverage—not guesswork.</p>\n"⟩,
   ⟨"the-signal-audit-framework",
   "The Signal Audit Framework",
   "2025-12-23",
   "A simple way to diagnose why marketing isn’t converting—without guessing.",
   "\n<p>The fastest way to improve marketing is to stop “tweaking” and start diagnosing.</p>\n<p>We look at:</p>\n<ul>\n  <li><strong>Signal:</strong> what’s being communicated (message + positioning)</li>\n  <li><strong>System:</strong> how demand moves (funnel + conversion logic)</li>\n  <li><strong>Distribution:</strong> where you show up (channels + targeting)</li>\n</ul>\n<p>Fix the system, and the results follow.</p>\n"⟩]

/-- `get_post(slug)`: the first post of the registry whose slug matches,
else `None`. -/
def get_post (slug : String) : Option BlogPost :=
  BLOG_POSTS.find? (fun p => p.slug == slug)

/-- `render_page(body_html, page, title, desc)`: instantiate the BASE
layout with the page metadata, the canonical URL built from the request
path, the ad configuration, and the body fragment rendered with the
resolved background image (`bodyTmpl` is the body template as a function
of the `hero_bg_url` variable). -/
def render_page (cfg : Config) (fs : FS) (path : String)
    (bodyTmpl : Option String → String) (page title desc : String) : String :=
  renderBASE title desc (site_url cfg.canonical_domain path)
    (cfg.adsense_enabled && !(cfg.adsense_client == "")) cfg.adsense_client
    cfg.include_pixels APP_NAME SLOGAN (bodyTmpl (bg_image_for fs page))

/-- The GET /blog/<slug> handler: 404 when the slug is not in the
registry, else the rendered post page. The blog-post body fragment is
rendered first with the post and the three ad units; the second render
pass of `render_page` substitutes `hero_bg_url`, which the already
rendered fragment does not mention, so the body template ignores it. -/
def blog_post (cfg : Config) (fs : FS) (slug : String) : RouteResult :=
  match get_post slug with
  | none => RouteResult.err 404 none
  | some post =>
    RouteResult.ok 200
      (render_page cfg fs ("/blog/" ++ slug)
        (fun _ => renderBLOG_POST_BODY post
          (adsense_ad_unit cfg.adsense_enabled cfg.adsense_client cfg.adsense_slot_header)
          (adsense_ad_unit cfg.adsense_enabled cfg.adsense_client cfg.adsense_slot_inarticle)
          (adsense_ad_unit cfg.adsense_enabled cfg.adsense_client cfg.adsense_slot_sidebar))
        "blog" (APP_NAME ++ " | " ++ post.title) post.excerpt)

/-- The POST /api/lead handler: strip the form fields, reject with 400
when a required field is missing or empty, otherwise build the payload
(source defaulting to "website_form", client ip from X-Forwarded-For else
the remote address, user agent from the header), append it via
`save_lead`, and 302-redirect to the thank-you page. Returns the
response together with the resulting lead-file state. -/
def lead (meta : RequestMeta) (now : String) (form : LeadForm)
    (file : FileState) : RouteResult × FileState :=
  let name := strip (pyOr form.name "")
  let email := strip (pyOr form.email "")
  let message := strip (pyOr form.message "")
  if name = "" ∨ email = "" ∨ message = "" then
    (RouteResult.err 400 (some "Missing required fields."), file)
  else
    (RouteResult.redirect 302 (url_for "thank_you"),
     some (save_lead now
       ⟨name, email, strip (pyOr form.company ""), strip (pyOr form.website ""),
        strip (pyOr form.budget ""), strip (pyOr form.goal ""), message,
        strip (pyOr form.source "website_form"),
        meta.xForwardedFor.getD meta.remoteAddr, meta.userAgent.getD ""⟩ file))

/-- The POST /api/newsletter handler: strip the email, reject with 400
when it is empty or lacks an "@", otherwise append the subscriber row and
302-redirect to the newsletter thank-you page. -/
def newsletter_subscribe (meta : RequestMeta) (now : String)
    (form : NewsletterForm) (file : FileState) : RouteResult × FileState :=
  let email := strip (pyOr form.email "")
  if email = "" ∨ '@' ∉ email.data then
    (RouteResult.err 400 (some "Enter a valid email."), file)
  else
    (RouteResult.redirect 302 (url_for "newsletter_thanks"),
     some (save_subscriber now
       ⟨email, strip (pyOr form.source "newsletter"),
        meta.xForwardedFor.getD meta.remoteAddr, meta.userAgent.getD ""⟩ file))

/-- A sequence of `save_lead` calls (one per valid submission), threading
the lead-file state. -/
def lead_saves (ds : List (String × LeadData)) (file : FileState) : FileState :=
  ds.foldl (fun f d => some (save_lead d.1 d.2 f)) file

/-- A sequence of `save_subscriber` calls, threading the file state. -/
def subscriber_saves (ds : List (String × SubscriberData)) (file : FileState) :
    FileState :=
  ds.foldl (fun f d => some (save_subscriber d.1 d.2 f)) file

/- Helper lemmas about the embedding. -/

theorem mem_of_mem_dropWhile {α : Type} {p : α → Bool} {l : List α} {a : α}
    (h : a ∈ l.dropWhile p) : a ∈ l :=
  (List.dropWhile_suffix p).subset h

theorem mem_dropWhile_of_not {α : Type} (p : α → Bool) {a : α}
    (ha : p a = false) : ∀ {l : List α}, a ∈ l → a ∈ l.dropWhile p := by
  intro l h
  induction l with
  | nil => cases h
  | cons x xs ih =>
    cases hx : p x with
    | true =>
      rw [List.dropWhile_cons_of_pos hx]
      rcases List.mem_cons.mp h with rfl | hxs
      · simp [hx] at ha
      · exact ih hxs
    | false =>
      rw [List.dropWhile_cons_of_neg (by simp [hx])]
      exact h

theorem mem_of_mem_stripChars {l : List Char} {a : Char}
    (h : a ∈ stripChars l) : a ∈ l := by
  unfold stripChars at h
  rw [List.mem_reverse] at h
  have h1 := mem_of_mem_dropWhile h
  rw [List.mem_reverse] at h1
  exact mem_of_mem_dropWhile h1

theorem mem_stripChars_of_mem {l : List Char} {a : Char}
    (ha : a.isWhitespace = false) (h : a ∈ l) : a ∈ stripChars l := by
  unfold stripChars
  rw [List.mem_reverse]
  refine mem_dropWhile_of_not _ ha ?_
  rw [List.mem_reverse]
  exact mem_dropWhile_of_not _ ha h

theorem stripChars_all_ws {l : List Char} (h : ∀ c ∈ l, c.isWhitespace) :
    stripChars l = [] := by
  have h1 : l.dropWhile Char.isWhitespace = [] := List.dropWhile_eq_nil_iff.mpr h
  unfold stripChars
  rw [h1]
  rfl

theorem strip_all_ws {s : String} (h : ∀ c ∈ s.data, c.isWhitespace) :
    strip s = "" := by
  unfold strip
  rw [stripChars_all_ws h]

theorem strip_data (s : String) : (strip s).data = stripChars s.data := rfl

theorem head_stripChars_not_ws {l : List Char} {c : Char}
    (h : (stripChars l).head? = some c) : c.isWhitespace = false := by
  unfold stripChars at h
  rw [List.head?_reverse] at h
  obtain ⟨t, ht⟩ :=
    List.dropWhile_suffix (l := (l.dropWhile Char.isWhitespace).reverse)
      (p := Char.isWhitespace)
  have hne : ((l.dropWhile Char.isWhitespace).reverse.dropWhile Char.isWhitespace) ≠ [] := by
    intro e; rw [e] at h; cases h
  have hlast : ((l.dropWhile Char.isWhitespace).reverse).getLast? = some c := by
    rw [← ht, List.getLast?_append, h]
    rfl
  rw [List.getLast?_reverse] at hlast
  have h0 := List.head?_dropWhile_not Char.isWhitespace l
  rw [hlast] at h0
  exact h0

theorem last_stripChars_not_ws {l : List Char} {c : Char}
    (h : (stripChars l).getLast? = some c) : c.isWhitespace = false := by
  unfold stripChars at h
  rw [List.getLast?_reverse] at h
  have h0 :=
    List.head?_dropWhile_not Char.isWhitespace (l.dropWhile Char.isWhitespace).reverse
  rw [h] at h0
  exact h0

/-- A string with no leading and no trailing whitespace character. -/
def noEdgeWS (s : String) : Prop :=
  (∀ c, s.data.head? = some c → c.isWhitespace = false) ∧
  (∀ c, s.data.getLast? = some c → c.isWhitespace = false)

theorem noEdgeWS_strip (s : String) : noEdgeWS (strip s) := by
  constructor
  · intro c hc
    rw [strip_data] at hc
    exact head_stripChars_not_ws hc
  · intro c hc
    rw [strip_data] at hc
    exact last_stripChars_not_ws hc

theorem pyOr_some_empty (s : String) : pyOr (some s) "" = s := by
  by_cases h : s = "" <;> simp [pyOr, h]

/-- Substring containment: `t` occurs inside `s`. -/
def strContains (s t : String) : Prop := ∃ a b, s = a ++ t ++ b

theorem strContains_append_left {s t : String} (x : String)
    (h : strContains s t) : strContains (x ++ s) t := by
  obtain ⟨a, b, rfl⟩ := h
  exact ⟨x ++ a, b, by simp [String.append_assoc]⟩

theorem ne_of_length_ne {s t : String} (h : s.length ≠ t.length) : s ≠ t :=
  fun e => h (by rw [e])

theorem missing_empty_strip {x : Option String} (h : x = none ∨ x = some "") :
    strip (pyOr x "") = "" := by
  rcases h with rfl | rfl <;> rfl

/- Claim theorems. -/

/-- C9: the record store writes a header row exactly when the target file
does not exist at append time: on a fresh file the header becomes the
first row before the data row, while on an existing file — whatever it
contains, even empty or with a wrong first line — the append adds the one
data row and leaves the existing content untouched. -/
theorem save_row_header_only_when_absent (rows : List (List String))
    (header row : List String) :
    ensure_csv_header none header = [header] ∧
    ensure_csv_header (some rows) header = rows ∧
    save_row none header row = [header, row] ∧
    save_row (some rows) header row = rows ++ [row] :=
  ⟨rfl, rfl, rfl, rfl⟩

/-- C2: a POST /api/lead request in which name, email or message is
missing or empty is answered with a 400 error ("Missing required
fields.") and the lead file is left exactly as it was: no persistence
happens. -/
theorem lead_missing_field_rejected (meta : RequestMeta) (now : String)
    (form : LeadForm) (file : FileState)
    (h : (form.name = none ∨ form.name = some "") ∨
         (form.email = none ∨ form.email = some "") ∨
         (form.message = none ∨ form.message = some "")) :
    lead meta now form file
      = (RouteResult.err 400 (some "Missing required fields."), file) := by
  rcases h with h | h | h
  · simp [lead, missing_empty_strip h]
  · simp [lead, missing_empty_strip h]
  · simp [lead, missing_empty_strip h]

/-- C2 witness: a concrete request with the email field absent is
rejected with status 400 and the one-row file is unchanged. -/
theorem lead_missing_field_rejected_witness :
    lead ⟨none, "203.0.113.7", some "curl/8"⟩ "2026-02-03T00:00:00+00:00"
        ⟨some "Ada", none, none, none, none, none, some "Hello there", none⟩
        (some [leadHeader])
      = (RouteResult.err 400 (some "Missing required fields."), some [leadHeader]) :=
  lead_missing_field_rejected _ _ _ _ (Or.inr (Or.inl (Or.inl rfl)))

/-- C5: the ad-unit function renders the full advertisement block exactly
when the ads-enabled flag is set, the client identifier is non-empty and
the slot identifier is non-empty; whenever any of the three conditions
fails it returns empty markup, and in the enabled case the result is the
complete (non-empty) block, never a partial one. -/
theorem adsense_ad_unit_gating (enabled : Bool) (client slot : String) :
    ((enabled = true ∧ client ≠ "" ∧ slot ≠ "") →
        adsense_ad_unit enabled client slot = ad_block client slot ∧
        adsense_ad_unit enabled client slot ≠ "") ∧
    (¬(enabled = true ∧ client ≠ "" ∧ slot ≠ "") →
        adsense_ad_unit enabled client slot = "") := by
  constructor
  · intro h
    have hb : adsense_ad_unit enabled client slot = ad_block client slot := by
      simp [adsense_ad_unit, h.1, h.2.1, h.2.2]
    refine ⟨hb, ?_⟩
    rw [hb]
    apply ne_of_length_ne
    have hpos : 0 < (ad_block client slot).length := by
      rw [ad_block, String.length_append]
      have h0 : 0 < ad_block_c0.length := by decide
      omega
    have hz : ("" : String).length = 0 := rfl
    omega
  · intro h
    simp [adsense_ad_unit, h]

/-- C5 witness: with the flag set and both identifiers configured the
block is rendered non-empty; clearing the flag yields empty markup. -/
theorem adsense_ad_unit_gating_witness :
    (adsense_ad_unit true "ca-pub-1234567890123456" "1234567890"
        = ad_block "ca-pub-1234567890123456" "1234567890" ∧
      adsense_ad_unit true "ca-pub-1234567890123456" "1234567890" ≠ "") ∧
    adsense_ad_unit false "ca-pub-1234567890123456" "1234567890" = "" :=
  ⟨(adsense_ad_unit_gating true "ca-pub-1234567890123456" "1234567890").1
      ⟨rfl, by decide, by decide⟩,
   (adsense_ad_unit_gating false "ca-pub-1234567890123456" "1234567890").2
      (by simp)⟩

/-- C1 counterexample: in a valid lead request that omits the source field
and submits a company value with surrounding whitespace, the stored row
holds "website_form" for the omitted source (not the empty string) and
the trimmed company value (not the submitted value verbatim). -/
theorem lead_verbatim_counterexample :
    (lead ⟨none, "1.2.3.4", some "UA"⟩ "2026-02-03T00:00:00+00:00"
        ⟨some "Ada", some "ada@example.com", some " Acme ", none, none, none,
         some "Hello", none⟩ none).2
      = some [leadHeader,
          ["2026-02-03T00:00:00+00:00", "Ada", "ada@example.com", "Acme", "", "",
           "", "Hello", "website_form", "1.2.3.4", "UA"]] ∧
    ("Acme" : String) ≠ " Acme " ∧ ("website_form" : String) ≠ "" :=
  ⟨by decide, by decide, by decide⟩

/-- C1 (amended): a POST /api/lead request whose required fields are
non-empty after stripping is answered with a 302 redirect to /thank-you,
and exactly one row is appended whose field values are the submitted
values with surrounding whitespace stripped — the empty string for
omitted company, website, budget and goal, and the default
"website_form" for an omitted source. -/
theorem lead_valid_submission_amended (meta : RequestMeta) (now : String)
    (form : LeadForm) (file : FileState)
    (hn : strip (pyOr form.name "") ≠ "") (he : strip (pyOr form.email "") ≠ "")
    (hm : strip (pyOr form.message "") ≠ "") :
    (lead meta now form file).1 = RouteResult.redirect 302 "/thank-you" ∧
    ∃ row,
      (lead meta now form file).2 = some (ensure_csv_header file leadHeader ++ [row]) ∧
      (∀ rows, file = some rows →
        (ensure_csv_header file leadHeader ++ [row]).length = rows.length + 1) ∧
      row = [now, strip (pyOr form.name ""), strip (pyOr form.email ""),
             strip (pyOr form.company ""), strip (pyOr form.website ""),
             strip (pyOr form.budget ""), strip (pyOr form.goal ""),
             strip (pyOr form.message ""), strip (pyOr form.source "website_form"),
             meta.xForwardedFor.getD meta.remoteAddr, meta.userAgent.getD ""] ∧
      (form.company = none → row[3]? = some "") ∧
      (form.website = none → row[4]? = some "") ∧
      (form.budget = none → row[5]? = some "") ∧
      (form.goal = none → row[6]? = some "") ∧
      (form.source = none → row[8]? = some "website_form") := by
  have hc : ¬(strip (pyOr form.name "") = "" ∨ strip (pyOr form.email "") = "" ∨
      strip (pyOr form.message "") = "") := by simp [hn, he, hm]
  refine ⟨?_, ?_⟩
  · simp [lead, hc, url_for]
  · refine ⟨[now, strip (pyOr form.name ""), strip (pyOr form.email ""),
       strip (pyOr form.company ""), strip (pyOr form.website ""),
       strip (pyOr form.budget ""), strip (pyOr form.goal ""),
       strip (pyOr form.message ""), strip (pyOr form.source "website_form"),
       meta.xForwardedFor.getD meta.remoteAddr, meta.userAgent.getD ""],
      ?_, ?_, rfl, ?_, ?_, ?_, ?_, ?_⟩
    · simp [lead, hc, save_lead, save_row, lead_row]
    · intro rows hr
      subst hr
      simp [ensure_csv_header]
    · intro h0; simp [h0, pyOr, strip, stripChars]
    · intro h0; simp [h0, pyOr, strip, stripChars]
    · intro h0; simp [h0, pyOr, strip, stripChars]
    · intro h0; simp [h0, pyOr, strip, stripChars]
    · intro h0; simp [h0, pyOr]; decide

/-- C1 witness: a concrete valid submission with every optional field
omitted redirects to /thank-you and appends the single expected row. -/
theorem lead_valid_submission_amended_witness :
    strip (pyOr (some "Ada") "") ≠ "" ∧
    ((lead ⟨none, "1.2.3.4", some "UA"⟩ "T"
        ⟨some "Ada", some "a@b.c", none, none, none, none, some "hi", none⟩
        none).1 = RouteResult.redirect 302 "/thank-you") :=
  ⟨by decide,
   (lead_valid_submission_amended ⟨none, "1.2.3.4", some "UA"⟩ "T"
      ⟨some "Ada", some "a@b.c", none, none, none, none, some "hi", none⟩
      none (by decide) (by decide) (by decide)).1⟩

/-- C3: POST /api/newsletter rejects with a 400 ("Enter a valid email.")
and leaves the subscriber file untouched when the email field is missing,
empty, or lacks an "@" character; otherwise it 302-redirects to
/newsletter/thanks and appends exactly one subscriber row. -/
theorem newsletter_subscribe_spec (meta : RequestMeta) (now : String)
    (form : NewsletterForm) (file : FileState) :
    ((form.email = none ∨ form.email = some "" ∨
        (∀ s, form.email = some s → '@' ∉ s.data)) →
      newsletter_subscribe meta now form file
        = (RouteResult.err 400 (some "Enter a valid email."), file)) ∧
    (∀ s, form.email = some s → '@' ∈ s.data →
      (newsletter_subscribe meta now form file).1
          = RouteResult.redirect 302 "/newsletter/thanks" ∧
      (newsletter_subscribe meta now form file).2
          = some (ensure_csv_header file subscriberHeader ++
              [[now, strip s, strip (pyOr form.source "newsletter"),
                meta.xForwardedFor.getD meta.remoteAddr,
                meta.userAgent.getD ""]])) := by
  constructor
  · intro h
    rcases h with h | h | h
    · simp [newsletter_subscribe, h, pyOr, strip, stripChars]
    · simp [newsletter_subscribe, h, pyOr, strip, stripChars]
    · cases hem : form.email with
      | none => simp [newsletter_subscribe, hem, pyOr, strip, stripChars]
      | some s =>
        have hs : '@' ∉ s.data := h s hem
        have h2 : '@' ∉ (strip s).data := by
          intro hm
          exact hs (mem_of_mem_stripChars hm)
        simp [newsletter_subscribe, hem, pyOr_some_empty, h2]
  · intro s hs hat
    have h1 : '@' ∈ (strip s).data := mem_stripChars_of_mem (by decide) hat
    have h2 : strip s ≠ "" := by
      intro e
      rw [e] at h1
      cases h1
    constructor
    · simp [newsletter_subscribe, hs, pyOr_some_empty, h1, h2, url_for]
    · simp [newsletter_subscribe, hs, pyOr_some_empty, h1, h2,
        save_subscriber, save_row, subscriber_row]

/-- C3 witness: an email without "@" is rejected with the file unchanged,
and a concrete valid email appends the single expected subscriber row and
redirects. -/
theorem newsletter_subscribe_spec_witness :
    (newsletter_subscribe ⟨none, "r", none⟩ "T" ⟨some "not-an-email", none⟩
        (some [subscriberHeader])
      = (RouteResult.err 400 (some "Enter a valid email."),
         some [subscriberHeader])) ∧
    ((newsletter_subscribe ⟨none, "r", none⟩ "T" ⟨some " a@b ", none⟩ none).1
        = RouteResult.redirect 302 "/newsletter/thanks") :=
  ⟨(newsletter_subscribe_spec ⟨none, "r", none⟩ "T" ⟨some "not-an-email", none⟩
      (some [subscriberHeader])).1
      (Or.inr (Or.inr (fun s hs => by cases hs; decide))),
   ((newsletter_subscribe_spec ⟨none, "r", none⟩ "T" ⟨some " a@b ", none⟩ none).2
      " a@b " rfl (by decide)).1⟩

/-- C10 counterexample: in a valid lead submission whose X-Forwarded-For
and User-Agent header values carry surrounding whitespace, the stored ip
and user-agent fields keep that whitespace verbatim, so not every stored
field value is free of leading/trailing whitespace. -/
theorem stored_header_values_not_stripped :
    (lead ⟨some " 1.2.3.4 ", "9.9.9.9", some " Mozilla/5.0 "⟩
        "2026-02-03T00:00:00+00:00"
        ⟨some "Ada", some "ada@example.com", none, none, none, none,
         some "Hello", none⟩ none).2
      = some [leadHeader,
          ["2026-02-03T00:00:00+00:00", "Ada", "ada@example.com", "", "", "", "",
           "Hello", "website_form", " 1.2.3.4 ", " Mozilla/5.0 "]] ∧
    strip " Mozilla/5.0 " ≠ " Mozilla/5.0 " :=
  ⟨by decide, by decide⟩

/-- C10 (amended): both handlers strip surrounding whitespace from form
fields before validating and persisting — a required lead field of only
whitespace, or a whitespace-only newsletter email, is rejected with 400
and nothing is persisted — and every stored form-derived field value
(name through source) has no leading or trailing whitespace, while the
client ip and user-agent header values are stored verbatim, unstripped. -/
theorem handlers_strip_form_fields_amended (meta : RequestMeta) (now : String)
    (lform : LeadForm) (nform : NewsletterForm) (file nfile : FileState) :
    ((∀ c ∈ (pyOr lform.name "").data, c.isWhitespace) ∨
     (∀ c ∈ (pyOr lform.email "").data, c.isWhitespace) ∨
     (∀ c ∈ (pyOr lform.message "").data, c.isWhitespace) →
        lead meta now lform file
          = (RouteResult.err 400 (some "Missing required fields."), file)) ∧
    ((∀ c ∈ (pyOr nform.email "").data, c.isWhitespace) →
        newsletter_subscribe meta now nform nfile
          = (RouteResult.err 400 (some "Enter a valid email."), nfile)) ∧
    (strip (pyOr lform.name "") ≠ "" → strip (pyOr lform.email "") ≠ "" →
     strip (pyOr lform.message "") ≠ "" →
      ∃ row, (lead meta now lform file).2
          = some (ensure_csv_header file leadHeader ++ [row]) ∧
        row = [now, strip (pyOr lform.name ""), strip (pyOr lform.email ""),
               strip (pyOr lform.company ""), strip (pyOr lform.website ""),
               strip (pyOr lform.budget ""), strip (pyOr lform.goal ""),
               strip (pyOr lform.message ""),
               strip (pyOr lform.source "website_form"),
               meta.xForwardedFor.getD meta.remoteAddr, meta.userAgent.getD ""] ∧
        ∀ v ∈ (row.drop 1).take 8, noEdgeWS v) := by
  refine ⟨?_, ?_, ?_⟩
  · intro h
    rcases h with h | h | h <;> simp [lead, strip_all_ws h]
  · intro h
    simp [newsletter_subscribe, strip_all_ws h]
  · intro h1 h2 h3
    have hc : ¬(strip (pyOr lform.name "") = "" ∨ strip (pyOr lform.email "") = "" ∨
        strip (pyOr lform.message "") = "") := by simp [h1, h2, h3]
    refine ⟨[now, strip (pyOr lform.name ""), strip (pyOr lform.email ""),
        strip (pyOr lform.company ""), strip (pyOr lform.website ""),
        strip (pyOr lform.budget ""), strip (pyOr lform.goal ""),
        strip (pyOr lform.message ""), strip (pyOr lform.source "website_form"),
        meta.xForwardedFor.getD meta.remoteAddr, meta.userAgent.getD ""],
      ?_, rfl, ?_⟩
    · simp [lead, hc, save_lead, save_row, lead_row]
    · intro v hv
      simp only [List.drop, List.take, List.mem_cons, List.not_mem_nil, or_false] at hv
      rcases hv with rfl | rfl | rfl | rfl | rfl | rfl | rfl | rfl <;>
        exact noEdgeWS_strip _

/-- C10 witness: a lead form whose name is only spaces is rejected, a
whitespace-only newsletter email is rejected, and a concrete valid
submission stores only edge-whitespace-free form values. -/
theorem handlers_strip_form_fields_amended_witness :
    (lead ⟨none, "r", none⟩ "T"
        ⟨some "   ", some "a@b.c", none, none, none, none, some "hi", none⟩ none
      = (RouteResult.err 400 (some "Missing required fields."), none)) ∧
    (newsletter_subscribe ⟨none, "r", none⟩ "T" ⟨some "  ", none⟩ none
      = (RouteResult.err 400 (some "Enter a valid email."), none)) :=
  ⟨(handlers_strip_form_fields_amended ⟨none, "r", none⟩ "T"
      ⟨some "   ", some "a@b.c", none, none, none, none, some "hi", none⟩
      ⟨some "  ", none⟩ none none).1 (Or.inl (by decide)),
   (handlers_strip_form_fields_amended ⟨none, "r", none⟩ "T"
      ⟨some "   ", some "a@b.c", none, none, none, none, some "hi", none⟩
      ⟨some "  ", none⟩ none none).2.1 (by decide)⟩

theorem lead_saves_closed (ds : List (String × LeadData)) :
    ∀ rows : List (List String), lead_saves ds (some rows)
      = some (rows ++ ds.map (fun d => lead_row d.1 d.2)) := by
  induction ds with
  | nil => intro rows; simp [lead_saves]
  | cons d ds ih =>
    intro rows
    have h1 : lead_saves (d :: ds) (some rows)
        = lead_saves ds (some (rows ++ [lead_row d.1 d.2])) := by
      simp [lead_saves, save_lead, save_row, ensure_csv_header]
    rw [h1, ih]
    simp

theorem subscriber_saves_closed (ds : List (String × SubscriberData)) :
    ∀ rows : List (List String), subscriber_saves ds (some rows)
      = some (rows ++ ds.map (fun d => subscriber_row d.1 d.2)) := by
  induction ds with
  | nil => intro rows; simp [subscriber_saves]
  | cons d ds ih =>
    intro rows
    have h1 : subscriber_saves (d :: ds) (some rows)
        = subscriber_saves ds (some (rows ++ [subscriber_row d.1 d.2])) := by
      simp [subscriber_saves, save_subscriber, save_row, ensure_csv_header]
    rw [h1, ih]
    simp

/-- C4: starting from a non-existent file, any non-empty sequence of
record-store appends (for either record kind) yields a file whose first
row is that kind's fixed header, followed by exactly one data row per
append in order, every row having the header's column count — the header
is written once, before any data row, and stays the first line. -/
theorem record_store_first_write_header (ds : List (String × LeadData))
    (es : List (String × SubscriberData)) (hds : ds ≠ []) (hes : es ≠ []) :
    (lead_saves ds none = some (leadHeader :: ds.map (fun d => lead_row d.1 d.2)) ∧
     (leadHeader :: ds.map (fun d => lead_row d.1 d.2)).length = ds.length + 1 ∧
     ∀ r ∈ leadHeader :: ds.map (fun d => lead_row d.1 d.2),
       r.length = leadHeader.length) ∧
    (subscriber_saves es none
        = some (subscriberHeader :: es.map (fun d => subscriber_row d.1 d.2)) ∧
     (subscriberHeader :: es.map (fun d => subscriber_row d.1 d.2)).length
        = es.length + 1 ∧
     ∀ r ∈ subscriberHeader :: es.map (fun d => subscriber_row d.1 d.2),
       r.length = subscriberHeader.length) := by
  constructor
  · obtain ⟨d, ds', rfl⟩ := List.exists_cons_of_ne_nil hds
    refine ⟨?_, by simp, ?_⟩
    · have h1 : lead_saves (d :: ds') none
          = lead_saves ds' (some [leadHeader, lead_row d.1 d.2]) := by
        simp [lead_saves, save_lead, save_row, ensure_csv_header]
      rw [h1, lead_saves_closed]
      simp
    · intro r hr
      rcases List.mem_cons.mp hr with rfl | hr
      · rfl
      · obtain ⟨a, _, rfl⟩ := List.mem_map.mp hr
        rfl
  · obtain ⟨e, es', rfl⟩ := List.exists_cons_of_ne_nil hes
    refine ⟨?_, by simp, ?_⟩
    · have h1 : subscriber_saves (e :: es') none
          = subscriber_saves es' (some [subscriberHeader, subscriber_row e.1 e.2]) := by
        simp [subscriber_saves, save_subscriber, save_row, ensure_csv_header]
      rw [h1, subscriber_saves_closed]
      simp
    · intro r hr
      rcases List.mem_cons.mp hr with rfl | hr
      · rfl
      · obtain ⟨a, _, rfl⟩ := List.mem_map.mp hr
        rfl

/-- C4 witness: one lead append and one subscriber append to fresh files
each create the header row followed by the single data row. -/
theorem record_store_first_write_header_witness :
    lead_saves [("T", ⟨"N", "E", "", "", "", "", "M", "s", "i", "u"⟩)] none
      = some [leadHeader, lead_row "T" ⟨"N", "E", "", "", "", "", "M", "s", "i", "u"⟩] ∧
    subscriber_saves [("T", ⟨"E", "s", "i", "u"⟩)] none
      = some [subscriberHeader, subscriber_row "T" ⟨"E", "s", "i", "u"⟩] :=
  ⟨((record_store_first_write_header
      [("T", ⟨"N", "E", "", "", "", "", "M", "s", "i", "u"⟩)]
      [("T", ⟨"E", "s", "i", "u"⟩)]
      (List.cons_ne_nil _ _) (List.cons_ne_nil _ _)).1).1,
   ((record_store_first_write_header
      [("T", ⟨"N", "E", "", "", "", "", "M", "s", "i", "u"⟩)]
      [("T", ⟨"E", "s", "i", "u"⟩)]
      (List.cons_ne_nil _ _) (List.cons_ne_nil _ _)).2).1⟩

/-- C6 counterexample: the registered static page routes number eight
(including /newsletter/thanks), yet the sitemap built over the blog
registry has 7 + |posts| entries and no entry for /newsletter/thanks, so
the entry count differs from (static page routes) + (posts). -/
theorem sitemap_omits_newsletter_thanks :
    (sitemap_pages "" BLOG_POSTS).length ≠ page_routes.length + BLOG_POSTS.length ∧
    "/newsletter/thanks" ∈ page_routes ∧
    ∀ e ∈ sitemap_pages "" BLOG_POSTS, e.1 ≠ "/newsletter/thanks" :=
  ⟨by decide, by decide, by decide⟩

theorem count_url_lines (pages : List (String × String × String)) :
    ((pages.map url_entry_lines).flatten.count "  <url>") = pages.length := by
  induction pages with
  | nil => rfl
  | cons p ps ih =>
    have hloc : ("    <loc>" ++ p.1 ++ "</loc>") ≠ "  <url>" := by
      apply ne_of_length_ne
      rw [String.length_append, String.length_append]
      have e1 : ("    <loc>" : String).length = 9 := by decide
      have e2 : ("</loc>" : String).length = 6 := by decide
      have e3 : ("  <url>" : String).length = 7 := by decide
      omega
    have hcf : ("    <changefreq>" ++ p.2.1 ++ "</changefreq>") ≠ "  <url>" := by
      apply ne_of_length_ne
      rw [String.length_append, String.length_append]
      have e1 : ("    <changefreq>" : String).length = 16 := by decide
      have e2 : ("</changefreq>" : String).length = 13 := by decide
      have e3 : ("  <url>" : String).length = 7 := by decide
      omega
    have hpr : ("    <priority>" ++ p.2.2 ++ "</priority>") ≠ "  <url>" := by
      apply ne_of_length_ne
      rw [String.length_append, String.length_append]
      have e1 : ("    <priority>" : String).length = 14 := by decide
      have e2 : ("</priority>" : String).length = 11 := by decide
      have e3 : ("  <url>" : String).length = 7 := by decide
      omega
    have hcl : ("  </url>" : String) ≠ "  <url>" := by decide
    simp [url_entry_lines, List.count_cons, List.count_append, List.count_nil,
      ih, hloc, hcf, hpr, hcl]

/-- C6 (amended): the sitemap lists one entry per static page route
except /newsletter/thanks, plus one per blog post — 7 + |posts| entries,
each emitted as a `<url>` block carrying a change-frequency line and a
priority line; the home entry comes first with strictly the highest
priority, and the three legal/thank-you static entries carry strictly
lower priorities than every other static page. -/
theorem sitemap_entries_amended (domain : String) (posts : List BlogPost) :
    (sitemap_pages domain posts).length = 7 + posts.length ∧
    (sitemap_xml_lines domain posts).count "  <url>"
        = (sitemap_pages domain posts).length ∧
    (∀ e ∈ sitemap_pages domain posts,
        ("    <changefreq>" ++ e.2.1 ++ "</changefreq>")
            ∈ sitemap_xml_lines domain posts ∧
        ("    <priority>" ++ e.2.2 ++ "</priority>")
            ∈ sitemap_xml_lines domain posts) ∧
    (sitemap_pages domain posts).head?
        = some (site_url domain "/", "weekly", "1.0") ∧
    (∀ e ∈ (sitemap_pages domain posts).drop 1, prio10 e.2.2 < prio10 "1.0") ∧
    (∀ e ∈ (static_pages domain).drop 4, ∀ f ∈ (static_pages domain).take 4,
        prio10 e.2.2 < prio10 f.2.2) := by
  refine ⟨?_, ?_, ?_, ?_, ?_, ?_⟩
  · simp [sitemap_pages, static_pages]
    omega
  · have hx1 : ("<?xml version=\"1.0\" encoding=\"UTF-8\"?>" : String) ≠ "  <url>" := by
      decide
    have hx2 :
        ("<urlset xmlns=\"http://www.sitemaps.org/schemas/sitemap/0.9\">" : String)
          ≠ "  <url>" := by decide
    have hx3 : ("</urlset>" : String) ≠ "  <url>" := by decide
    rw [sitemap_xml_lines]
    rw [List.count_append, List.count_append]
    rw [count_url_lines]
    simp [List.count_cons, List.count_nil, hx1, hx2, hx3]
  · intro e he
    constructor
    · rw [sitemap_xml_lines]
      refine List.mem_append.mpr (Or.inl (List.mem_append.mpr (Or.inr ?_)))
      refine List.mem_flatten.mpr ⟨url_entry_lines e, List.mem_map_of_mem _ he, ?_⟩
      simp [url_entry_lines]
    · rw [sitemap_xml_lines]
      refine List.mem_append.mpr (Or.inl (List.mem_append.mpr (Or.inr ?_)))
      refine List.mem_flatten.mpr ⟨url_entry_lines e, List.mem_map_of_mem _ he, ?_⟩
      simp [url_entry_lines]
  · have hu : url_for "home" = "/" := by decide
    simp [sitemap_pages, static_pages, hu]
  · intro e he
    rw [sitemap_pages, static_pages] at he
    simp only [List.cons_append, List.drop_succ_cons, List.drop_zero,
      List.mem_cons, List.mem_append] at he
    rcases he with rfl | rfl | rfl | rfl | rfl | rfl | h
    · norm_num [prio10]
    · norm_num [prio10]
    · norm_num [prio10]
    · norm_num [prio10]
    · norm_num [prio10]
    · norm_num [prio10]
    · rcases h with h | h
      · cases h
      · obtain ⟨p, _, rfl⟩ := List.mem_map.mp h
        norm_num [prio10]
  · intro e he f hf
    rw [static_pages] at he hf
    simp only [List.drop_succ_cons, List.drop_zero, List.take_succ_cons,
      List.take_zero, List.mem_cons, List.not_mem_nil, or_false] at he hf
    rcases he with rfl | rfl | rfl <;> rcases hf with rfl | rfl | rfl | rfl <;>
      norm_num [prio10]

/-- C6 witness: over the configured registry with no canonical domain the
sitemap has nine entries, nine url blocks, the home entry first, and the
last static entries carry the lowest priorities. -/
theorem sitemap_entries_amended_witness :
    (sitemap_pages "" BLOG_POSTS).length = 7 + BLOG_POSTS.length ∧
    (sitemap_xml_lines "" BLOG_POSTS).count "  <url>"
        = (sitemap_pages "" BLOG_POSTS).length ∧
    (sitemap_pages "" BLOG_POSTS).head? = some (site_url "" "/", "weekly", "1.0") :=
  ⟨(sitemap_entries_amended "" BLOG_POSTS).1,
   (sitemap_entries_amended "" BLOG_POSTS).2.1,
   (sitemap_entries_amended "" BLOG_POSTS).2.2.2.1⟩

/-- C7: GET /blog/<slug> responds 404 when no post with that slug is in
the registry, and for a registered slug it responds 200 with an HTML body
that contains that post's title. -/
theorem blog_post_route_spec (cfg : Config) (fs : FS) (slug : String) :
    (get_post slug = none → blog_post cfg fs slug = RouteResult.err 404 none) ∧
    (∀ post, get_post slug = some post →
      ∃ html, blog_post cfg fs slug = RouteResult.ok 200 html ∧
        strContains html post.title) := by
  constructor
  · intro h
    simp [blog_post, h]
  · intro post h
    refine ⟨render_page cfg fs ("/blog/" ++ slug)
        (fun _ => renderBLOG_POST_BODY post
          (adsense_ad_unit cfg.adsense_enabled cfg.adsense_client
            cfg.adsense_slot_header)
          (adsense_ad_unit cfg.adsense_enabled cfg.adsense_client
            cfg.adsense_slot_inarticle)
          (adsense_ad_unit cfg.adsense_enabled cfg.adsense_client
            cfg.adsense_slot_sidebar))
        "blog" (APP_NAME ++ " | " ++ post.title) post.excerpt, ?_, ?_⟩
    · simp [blog_post, h]
    · simp only [render_page, renderBASE]
      apply strContains_append_left
      exact ⟨APP_NAME ++ " | ", _, rfl⟩

/-- C7 witness: an unregistered slug yields 404, and the registered slug
positioning-before-promotion yields a 200 page containing the post's
title. -/
theorem blog_post_route_spec_witness :
    (blog_post ⟨"", false, false, "", "", "", ""⟩
        ⟨fun _ => false, fun _ => false⟩ "unknown-slug"
      = RouteResult.err 404 none) ∧
    ∃ html,
      blog_post ⟨"", false, false, "", "", "", ""⟩
          ⟨fun _ => false, fun _ => false⟩ "positioning-before-promotion"
        = RouteResult.ok 200 html ∧
      strContains html "Positioning Before Promotion" := by
  constructor
  · exact (blog_post_route_spec _ _ _).1 (by decide)
  · have hp : ∃ p, get_post "positioning-before-promotion" = some p ∧
        p.title = "Positioning Before Promotion" := ⟨_, rfl, rfl⟩
    obtain ⟨p, hp1, hp2⟩ := hp
    have h := (blog_post_route_spec ⟨"", false, false, "", "", "", ""⟩
      ⟨fun _ => false, fun _ => false⟩ "positioning-before-promotion").2 p hp1
    rw [hp2] at h
    exact h

/-- C8: background-image resolution checks static/img first and images
second, returning the first existing match; the page lookup yields the
public URL path exactly when the mapped file exists in either directory,
and `None` otherwise; and the result is a pure function of the page key
and the filesystem state (equal states give equal results, and the
embedding performs reads only). -/
theorem bg_image_resolution_spec (fs fs' : FS) (page filename : String) :
    (fs.staticImg filename = true →
        find_bg_file fs filename = some (BgPath.staticImg filename)) ∧
    (fs.staticImg filename = false → fs.imagesDir filename = true →
        find_bg_file fs filename = some (BgPath.imagesDir filename)) ∧
    (fs.staticImg filename = false → fs.imagesDir filename = false →
        find_bg_file fs filename = none) ∧
    (∀ url, bg_image_for fs page = some url ↔
        ∃ fn, bg_mapping.lookup page = some fn ∧ fn ≠ "" ∧
          (fs.staticImg fn = true ∨ fs.imagesDir fn = true) ∧
          url = "/static/img/" ++ fn) ∧
    ((∀ f, fs.staticImg f = fs'.staticImg f) →
     (∀ f, fs.imagesDir f = fs'.imagesDir f) →
        bg_image_for fs page = bg_image_for fs' page) := by
  refine ⟨?_, ?_, ?_, ?_, ?_⟩
  · intro h
    simp [find_bg_file, h]
  · intro h1 h2
    simp [find_bg_file, h1, h2]
  · intro h1 h2
    simp [find_bg_file, h1, h2]
  · intro url
    constructor
    · intro h
      cases hl : bg_mapping.lookup page with
      | none => simp [bg_image_for, hl] at h
      | some fn =>
        by_cases hfn : fn = ""
        · simp [bg_image_for, hl, hfn] at h
        · rw [bg_image_for] at h
          simp only [hl] at h
          rw [if_neg hfn] at h
          cases hf : find_bg_file fs fn with
          | none => simp [hf] at h
          | some p =>
            simp only [hf] at h
            have hex : fs.staticImg fn = true ∨ fs.imagesDir fn = true := by
              by_cases hs : fs.staticImg fn = true
              · exact Or.inl hs
              · by_cases hi : fs.imagesDir fn = true
                · exact Or.inr hi
                · rw [find_bg_file, if_neg (by simp_all), if_neg (by simp_all)] at hf
                  cases hf
            simp only [Option.some.injEq] at h
            exact ⟨fn, rfl, hfn, hex, h.symm⟩
    · intro h
      obtain ⟨fn, hl, hfn, hex, rfl⟩ := h
      rcases hex with hs | hi
      · simp [bg_image_for, hl, hfn, find_bg_file, hs]
      · by_cases hs : fs.staticImg fn = true
        · simp [bg_image_for, hl, hfn, find_bg_file, hs]
        · simp [bg_image_for, hl, hfn, find_bg_file, hs, hi]
  · intro h1 h2
    have hfs : fs = fs' := by
      obtain ⟨a, b⟩ := fs
      obtain ⟨a', b'⟩ := fs'
      simp only [FS.mk.injEq]
      exact ⟨funext h1, funext h2⟩
    rw [hfs]

/-- C8 witness: with the file present only in the images directory the
resolver returns the images-directory match, the blog page key resolves
to its public URL, and an empty filesystem yields the no-image sentinel. -/
theorem bg_image_resolution_spec_witness :
    (find_bg_file ⟨fun _ => false, fun f => f == "insights_bg_1920x1080.jpg"⟩
        "insights_bg_1920x1080.jpg"
      = some (BgPath.imagesDir "insights_bg_1920x1080.jpg")) ∧
    (bg_image_for ⟨fun _ => false, fun f => f == "insights_bg_1920x1080.jpg"⟩ "blog"
      = some "/static/img/insights_bg_1920x1080.jpg") ∧
    find_bg_file ⟨fun _ => false, fun _ => false⟩ "home_bg_1920x1080.jpg" = none := by
  refine ⟨?_, ?_, ?_⟩
  · exact (bg_image_resolution_spec
      ⟨fun _ => false, fun f => f == "insights_bg_1920x1080.jpg"⟩
      ⟨fun _ => false, fun _ => false⟩ "blog" "insights_bg_1920x1080.jpg").2.1
      rfl (by decide)
  · exact ((bg_image_resolution_spec
      ⟨fun _ => false, fun f => f == "insights_bg_1920x1080.jpg"⟩
      ⟨fun _ => false, fun _ => false⟩ "blog" "insights_bg_1920x1080.jpg").2.2.2.1
      "/static/img/insights_bg_1920x1080.jpg").mpr
      ⟨"insights_bg_1920x1080.jpg", by decide, by decide, Or.inr (by decide), rfl⟩
  · exact (bg_image_resolution_spec ⟨fun _ => false, fun _ => false⟩
      ⟨fun _ => false, fun _ => false⟩ "home" "home_bg_1920x1080.jpg").2.2.1
      rfl rfl
